import Mathlib

/-!
Shallow embedding of the `custom-HTTP-server` repository (Python) and proofs
about its claims.

Conventions of the embedding:
* Python `bytes`/`bytearray` values are `List Nat` (one entry per byte).
* Python `str` values are `List Char` (Python string indices are character
  indices, so `List Char` matches Python slicing/find semantics directly).
* Python exceptions become the `PyErr` error type threaded through `Except`.
* Wall-clock time is elided: the per-call socket timeout and the per-request
  time budget never fire in the model; loops that the source bounds only by
  time carry a fuel parameter, and running out of fuel is reported as
  `PyErr.timeoutError` (the case in which the source would eventually raise
  its timeout).
* `socket.recv(n)` is modelled deterministically as delivering
  `min n available` pending bytes (the maximal-progress schedule);
  `recv` of a negative count raises `ValueError` as in CPython.
-/

/-- Bytes on the wire: one natural number (0..255) per byte. -/
abbrev Bytes := List Nat

/-- Python strings, as their character lists. -/
abbrev PyStr := List Char

/-- Characters of a Lean string literal, for writing Python `str` constants. -/
def strChars (s : String) : PyStr := s.data

/-- ASCII bytes of a Lean string literal, for writing Python `bytes` constants. -/
def strBytes (s : String) : Bytes := s.data.map Char.toNat

/-- Python exceptions that the modelled code can raise. -/
inductive PyErr where
  /-- `HttpError(code, ...)` from `mhttp.helpers`. -/
  | httpError (code : Int)
  /-- `ValueError` (including `int()` parse failures and `list.remove` misses). -/
  | valueError
  /-- `IndexError` (out-of-range sequence index). -/
  | indexError
  /-- `UnicodeDecodeError` (the model decodes ASCII only; all traces are ASCII). -/
  | unicodeError
  /-- `TimeoutError` / exhausted fuel standing for a blocking call that would
      only return after the socket timeout. -/
  | timeoutError
  /-- `OSError` other than `TimeoutError` (transport failure; never produced by
      the model itself, kept for the server loop's `except OSError` branch). -/
  | osError
  deriving DecidableEq, Repr

/-- Equality on `Except` results is decidable (needed to settle concrete
evaluations of the model by `decide`). -/
instance [DecidableEq ε] [DecidableEq α] : DecidableEq (Except ε α) := fun a b =>
  match a, b with
  | .ok x, .ok y => if h : x = y then .isTrue (by rw [h]) else .isFalse (by simp [h])
  | .error x, .error y => if h : x = y then .isTrue (by rw [h]) else .isFalse (by simp [h])
  | .ok _, .error _ => .isFalse (by simp)
  | .error _, .ok _ => .isFalse (by simp)

/-- Python slice `l[i:j]` for non-negative `i`, `j` (empty when `j ≤ i`). -/
def pySlice (l : List α) (i j : Nat) : List α :=
  (l.take j).drop i

/-- Python slice assignment `arr[i:j] = data` on a `bytearray`: the region
`[i, j)` is replaced by `data`; when `j` runs past the end the array simply
grows (CPython extends the array on slice assignment). -/
def pySetSlice (arr : Bytes) (i j : Nat) (data : Bytes) : Bytes :=
  arr.take i ++ data ++ arr.drop j

/-- First index at which `pat` occurs in `l` (Python `find` on the whole
sequence); `some 0` for an empty pattern, as in Python. -/
def findSub [DecidableEq α] (pat : List α) : List α → Option Nat
  | [] => if pat.isPrefixOf ([] : List α) then some 0 else none
  | a :: t => if pat.isPrefixOf (a :: t) then some 0 else (findSub pat t).map (· + 1)

/-- Python `arr.find(pat, start, stop)`: first occurrence inside
`arr[start:stop]`, as an absolute index, `-1` when absent. -/
def pyFindRange [DecidableEq α] (arr : List α) (pat : List α) (start stop : Nat) : Int :=
  match findSub pat (pySlice arr start stop) with
  | some i => (start + i : Int)
  | none => -1

/-- Python `s.find(pat)` over a whole string/bytes value (`-1` when absent). -/
def pyFind [DecidableEq α] (arr : List α) (pat : List α) : Int :=
  match findSub pat arr with
  | some i => (i : Int)
  | none => -1

/-- Python `pat in s` substring test. -/
def pyContains [DecidableEq α] (arr : List α) (pat : List α) : Bool :=
  (findSub pat arr).isSome

/-- Python `s.split(sep, maxsplit=1)` reported as `none` when `sep` is absent
(the caller sees a one-element list) and `some (before, after)` otherwise. -/
def pySplitOnce [DecidableEq α] (l sep : List α) : Option (List α × List α) :=
  match findSub sep l with
  | some i => some (l.take i, l.drop (i + sep.length))
  | none => none

/-- Helper for `pySplitAll`: the fuel always suffices for a non-empty
separator, since every found occurrence consumes at least one element. -/
def pySplitAllAux [DecidableEq α] (sep : List α) : Nat → List α → List (List α)
  | 0, l => [l]
  | fuel + 1, l =>
    match findSub sep l with
    | some i => l.take i :: pySplitAllAux sep fuel (l.drop (i + sep.length))
    | none => [l]

/-- Python `s.split(sep)` with a non-empty separator: full split keeping
empty parts. -/
def pySplitAll [DecidableEq α] (sep l : List α) : List (List α) :=
  pySplitAllAux sep (l.length + 1) l

/-- Python whitespace for `str.strip()`. -/
def pyIsSpace (c : Char) : Bool :=
  c == ' ' || c == '\t' || c == '\n' || c == '\r' || c == '\x0b' || c == '\x0c'

/-- Python `s.strip()`. -/
def pyStrip (s : PyStr) : PyStr :=
  (s.dropWhile pyIsSpace).reverse.dropWhile pyIsSpace |>.reverse

/-- Python `s.lower()` (ASCII; the source only lowercases header names/values). -/
def pyLower (s : PyStr) : PyStr :=
  s.map Char.toLower

/-- Python `s.replace(old, new)` for single characters (the source only uses
`replace('"', '')`, modelled as a filter). -/
def pyEraseChar (s : PyStr) (c : Char) : PyStr :=
  s.filter (· ≠ c)

/-- Digit-count worker; the fuel (any bound on the digit count, the callers
pass `n + 1`) keeps the recursion structural so that it reduces in the kernel. -/
def decLenNatAux : Nat → Nat → Nat
  | 0, _ => 1
  | fuel + 1, n => if n < 10 then 1 else 1 + decLenNatAux fuel (n / 10)

/-- Number of decimal digits of a natural number. -/
def decLenNat (n : Nat) : Nat :=
  decLenNatAux (n + 1) n

/-- `len(str(i))` for a Python int (a minus sign counts one character). -/
def decStrLen (i : Int) : Nat :=
  if i < 0 then 1 + decLenNat (-i).toNat else decLenNat i.toNat

/-- Decimal-digit worker (fuel-structural, see `decLenNatAux`). -/
def natDecCharsAux : Nat → Nat → PyStr
  | 0, n => [Char.ofNat (48 + n % 10)]
  | fuel + 1, n =>
    if n < 10 then [Char.ofNat (48 + n)]
    else natDecCharsAux fuel (n / 10) ++ [Char.ofNat (48 + n % 10)]

/-- Decimal digits of a natural number, most significant first. -/
def natDecChars (n : Nat) : PyStr :=
  natDecCharsAux (n + 1) n

/-- Python `str(i)` for an int. -/
def intStr (i : Int) : PyStr :=
  if i < 0 then '-' :: natDecChars (-i).toNat else natDecChars i.toNat

/-- Value of a hex digit character, if it is one. -/
def hexDigitVal (c : Char) : Option Nat :=
  if '0' ≤ c ∧ c ≤ '9' then some (c.toNat - 48)
  else if 'a' ≤ c ∧ c ≤ 'f' then some (c.toNat - 87)
  else if 'A' ≤ c ∧ c ≤ 'F' then some (c.toNat - 70)
  else none

/-- Fold hex digits; `none` as soon as a character is not a hex digit, and
`none` when no digit was seen at all. -/
def hexDigitsVal : PyStr → Option Nat → Option Nat
  | [], acc => acc
  | c :: t, acc =>
    match hexDigitVal c with
    | some d => hexDigitsVal t (some (acc.getD 0 * 16 + d))
    | none => none

/-- Unsigned part of `int(s, 16)`: an optional `0x`/`0X` prefix, then at
least one hex digit. -/
def hexUnsigned (t : PyStr) : Option Nat :=
  match t with
  | '0' :: 'x' :: rest => hexDigitsVal rest none
  | '0' :: 'X' :: rest => hexDigitsVal rest none
  | t => hexDigitsVal t none

/-- Python `int(s, 16)`: optional sign, optional `0x` prefix, then at least
one hex digit; `none` stands for the `ValueError` CPython raises otherwise
(in particular on an empty string). -/
def pyIntBase16 (s : PyStr) : Option Int :=
  match pyStrip s with
  | [] => none
  | '-' :: t => (hexUnsigned t).map (fun v => -(v : Int))
  | '+' :: t => (hexUnsigned t).map (fun v => (v : Int))
  | t => (hexUnsigned t).map (fun v => (v : Int))

/-- Value of a decimal digit character, if it is one. -/
def decDigitVal (c : Char) : Option Nat :=
  if '0' ≤ c ∧ c ≤ '9' then some (c.toNat - 48) else none

/-- Fold decimal digits; `none` on any non-digit, and `none` when no digit
was seen at all. -/
def decDigitsVal : PyStr → Option Nat → Option Nat
  | [], acc => acc
  | c :: t, acc =>
    match decDigitVal c with
    | some d => decDigitsVal t (some (acc.getD 0 * 10 + d))
    | none => none

/-- Python `int(s)`: optional sign then decimal digits; `none` is `ValueError`. -/
def pyIntBase10 (s : PyStr) : Option Int :=
  match pyStrip s with
  | [] => none
  | '-' :: t => (decDigitsVal t none).map (fun v => -(v : Int))
  | '+' :: t => (decDigitsVal t none).map (fun v => (v : Int))
  | t => (decDigitsVal t none).map (fun v => (v : Int))

/-- Python `bytes.decode()`, restricted to ASCII: every trace the claims touch
is ASCII, so multi-byte UTF-8 sequences are reported as a decode error. -/
def pyDecode (b : Bytes) : Except PyErr PyStr :=
  if b.all (· < 128) then .ok (b.map Char.ofNat) else .error .unicodeError

/-- Python `str.encode()` for ASCII strings (character code points). -/
def pyEncode (s : PyStr) : Bytes :=
  s.map Char.toNat

/-- Python truthiness of an optional string (`None` and `''` are falsy). -/
def optTruthy (o : Option PyStr) : Bool :=
  match o with
  | none => false
  | some s => !s.isEmpty

/-! ## `utils/mcollections/buffer.py` — `FifoBuffer` -/

/-- `highest_log(num) = 2**(floor(log2(num)) + 1)` from `buffer.py`. -/
def highest_log (num : Nat) : Nat :=
  2 ^ (Nat.log2 num + 1)

/-- Length of `pySetSlice arr i j data` as a function of the lengths. -/
def pySetSliceLen (len i j d : Nat) : Nat :=
  min i len + d + (len - j)

/-- `pySetSliceLen` computes the length of `pySetSlice`. -/
theorem pySetSlice_length (arr : Bytes) (i j : Nat) (data : Bytes) :
    (pySetSlice arr i j data).length = pySetSliceLen arr.length i j data.length := by
  simp [pySetSlice, pySetSliceLen]
  omega

/-- Length of `pySlice arr i j` as a function of the array length. -/
def pySliceLen (len i j : Nat) : Nat :=
  min j len - i

/-- `pySliceLen` computes the length of `pySlice`. -/
theorem pySlice_length (arr : Bytes) (i j : Nat) :
    (pySlice arr i j).length = pySliceLen arr.length i j := by
  simp [pySlice, pySliceLen]

/-- `FifoBuffer`: a byte queue over a backing array with `bottom`/`top`
cursors.  The backing array keeps stale bytes outside `[bottom, top)`, which
matters because `pop_until` can rewind `bottom`.

`arrayLen` caches `len(self.__array)`: every operation updates it by the
exact length formula of the list operation it performs (`wf` below states the
invariant, and the `wf_*` lemmas prove each operation preserves it).  The
cache exists because computing the length of the literal 2048-byte array anew
at each `push` makes kernel evaluation of concrete traces infeasible; it
changes no observable behaviour. -/
structure FifoBuffer where
  array : Bytes
  arrayLen : Nat
  bottom : Nat
  top : Nat
  deriving DecidableEq, Repr

namespace FifoBuffer

/-- `FifoBuffer(init_size)`: a zeroed backing array, both cursors at 0. -/
def init (initSize : Nat) : FifoBuffer :=
  ⟨List.replicate initSize 0, initSize, 0, 0⟩

/-- `len(self) = top - bottom`. -/
def length (b : FifoBuffer) : Nat :=
  b.top - b.bottom

/-- `bool(self)`: non-empty test. -/
def nonempty (b : FifoBuffer) : Bool :=
  b.length != 0

/-- The length cache is correct. -/
def wf (b : FifoBuffer) : Prop :=
  b.arrayLen = b.array.length

/-- `__resize`: the source builds `new_arr` but copies `new_arr` into itself
and never assigns `self.__array = new_arr`; the only real effect is resetting
the cursors to `[0, len)` (so the live window silently moves onto whatever
bytes sit at the start of the old array). -/
def resize (b : FifoBuffer) (_size : Nat) : FifoBuffer :=
  { b with bottom := 0, top := b.length }

/-- `__reposition`: copy the live window `[bottom, top)` to the front. -/
def reposition (b : FifoBuffer) : FifoBuffer :=
  let len := b.length
  { b with
      array := pySetSlice b.array 0 len (pySlice b.array b.bottom b.top),
      arrayLen := pySetSliceLen b.arrayLen 0 len (pySliceLen b.arrayLen b.bottom b.top),
      bottom := 0, top := len }

/-- `push(data)`: grow (buggy resize) when over capacity, compact when the tail
has no room, then slice-assign `data` at `top`. -/
def push (b : FifoBuffer) (data : Bytes) : FifoBuffer :=
  let b := if data.length + b.length > b.arrayLen
    then b.resize (highest_log (data.length + b.length)) else b
  let b := if data.length + b.top > b.arrayLen then b.reposition else b
  let newTop := b.top + data.length
  { b with array := pySetSlice b.array b.top newTop data,
           arrayLen := pySetSliceLen b.arrayLen b.top newTop data.length,
           top := newTop }

/-- `init` establishes the cache invariant. -/
theorem wf_init (initSize : Nat) : (init initSize).wf := by
  simp [init, wf]

/-- `resize` preserves the cache invariant (it touches no array). -/
theorem wf_resize (b : FifoBuffer) (size : Nat) (h : b.wf) : (b.resize size).wf := h

/-- `reposition` preserves the cache invariant. -/
theorem wf_reposition (b : FifoBuffer) (h : b.wf) : b.reposition.wf := by
  unfold wf at h
  unfold wf reposition
  simp [pySetSlice_length, pySlice_length, h]

/-- The final slice-assignment of `push` preserves the cache invariant. -/
theorem wf_setslice (c : FifoBuffer) (data : Bytes) (hc : c.wf) :
    ({ c with array := pySetSlice c.array c.top (c.top + data.length) data,
              arrayLen := pySetSliceLen c.arrayLen c.top (c.top + data.length) data.length,
              top := c.top + data.length } : FifoBuffer).wf := by
  unfold wf at hc
  unfold wf
  simp [pySetSlice_length, hc]

/-- The second half of `push` (compaction plus slice-assignment) preserves
the cache invariant. -/
theorem wf_push_aux (c : FifoBuffer) (data : Bytes) (hc : c.wf) :
    (let b := if data.length + c.top > c.arrayLen then c.reposition else c
     let newTop := b.top + data.length
     ({ b with array := pySetSlice b.array b.top newTop data,
               arrayLen := pySetSliceLen b.arrayLen b.top newTop data.length,
               top := newTop } : FifoBuffer)).wf := by
  have h2 : (if data.length + c.top > c.arrayLen then c.reposition else c).wf := by
    split
    · exact wf_reposition _ hc
    · exact hc
  exact wf_setslice _ data h2

/-- `push` preserves the cache invariant. -/
theorem wf_push (b : FifoBuffer) (data : Bytes) (h : b.wf) : (b.push data).wf := by
  have h1 : (if data.length + b.length > b.arrayLen
      then b.resize (highest_log (data.length + b.length)) else b).wf := by
    split
    · exact wf_resize _ _ h
    · exact h
  exact wf_push_aux _ data h1

/-- `peek(length)`: up to `length` bytes from `bottom`, non-destructive. -/
def peek (b : FifoBuffer) (len : Nat) : Bytes :=
  pySlice b.array b.bottom (min (b.bottom + len) b.top)

/-- `pop(length)`: `peek` then advance `bottom`; when the buffer empties both
cursors reset to 0. -/
def pop (b : FifoBuffer) (len : Nat) : Bytes × FifoBuffer :=
  let res := b.peek len
  let bottom := b.bottom + res.length
  if bottom == b.top then (res, { b with bottom := 0, top := 0 })
  else (res, { b with bottom := bottom })

/-- `pop_all()`. -/
def pop_all (b : FifoBuffer) : Bytes × FifoBuffer :=
  b.pop b.length

/-- `pop_until(string)`: the source computes
`loc = array.find(string, bottom, top) + 1` and returns `array[bottom:loc]`,
setting `bottom = loc`.  `bytearray.find` returns `-1` when the needle is
absent (it never raises `ValueError`), so the `except ValueError:
return self.pop_all()` branch of the source is dead code: on a miss `loc` is
`0`, the result is empty, and `bottom` is rewound to `0`. -/
def pop_until (b : FifoBuffer) (string : Bytes) : Bytes × FifoBuffer :=
  let loc := (pyFindRange b.array string b.bottom b.top + 1).toNat
  let res := pySlice b.array b.bottom loc
  (res, { b with bottom := loc })

/-- `pop_line()` = `pop_until(b'\n')`. -/
def pop_line (b : FifoBuffer) : Bytes × FifoBuffer :=
  b.pop_until (strBytes "\n")

end FifoBuffer

/-! ## `utils/buffered_socket.py` — `BufferedSocket` -/

/-- A `BufferedSocket`: the `FifoBuffer` plus the bytes the peer has sent and
the process has not yet received (`stream`). -/
structure BufferedSocket where
  buffer : FifoBuffer
  stream : Bytes
  deriving DecidableEq, Repr

namespace BufferedSocket

/-- `BufferedSocket(sock)` with `buffer_len = 2048`. -/
def init (stream : Bytes) : BufferedSocket :=
  ⟨FifoBuffer.init 2048, stream⟩

/-- `socket.recv(n)` on the pending byte stream: delivers `min n available`
bytes (the model's deterministic maximal-progress schedule); a negative count
raises `ValueError` as in CPython. -/
def sockRecv (s : Bytes) (n : Int) : Except PyErr (Bytes × Bytes) :=
  if n < 0 then .error .valueError
  else .ok (s.take n.toNat, s.drop n.toNat)

/-- `read(size)`: buffered bytes if any, else one kernel read. -/
def read (bs : BufferedSocket) (size : Nat) : Bytes × BufferedSocket :=
  if bs.buffer.nonempty then
    let (res, buf) := bs.buffer.pop size
    (res, { bs with buffer := buf })
  else
    (bs.stream.take size, { bs with stream := bs.stream.drop size })

/-- The `while True` body of `read_line`: receive, look for `\n`, push back the
tail after the newline, or keep looping until the byte budget runs out.
The wall-clock timeout is the fuel. -/
def readLineLoop (fuel : Nat) (line : Bytes) (remaining : Int) (buf : FifoBuffer)
    (stream : Bytes) : Except PyErr (Bytes × BufferedSocket) :=
  match fuel with
  | 0 => .error .timeoutError
  | fuel + 1 =>
    let maxRead : Nat := max buf.length 1024
    match sockRecv stream (min (maxRead : Int) remaining) with
    | .error e => .error e
    | .ok (received, stream1) =>
      let remaining1 := remaining - received.length
      match received.findIdx? (· == 10) with
      | some index =>
        let line := line ++ received.take index
        -- `a = line[-1]` raises IndexError on an empty line
        match line.getLast? with
        | none => .error .indexError
        | some a =>
          let line := if a == 13 then line.dropLast else line
          let buf := buf.push (received.drop (index + 1))
          .ok (line, ⟨buf, stream1⟩)
      | none =>
        let buf := buf.push received
        if remaining1 ≤ 0 then .error .valueError   -- "Line not found within limit"
        else readLineLoop fuel line remaining1 buf stream1

/-- `read_line(limit)`: pop a buffered line first; if it is terminated, strip
the two trailing bytes (`del line[-2:]` assumes `\r\n`) and return, otherwise
fall into the receive loop with the remaining byte budget. -/
def read_line (bs : BufferedSocket) (limit : Int) (fuel : Nat) :
    Except PyErr (Bytes × BufferedSocket) :=
  let (line, buf) := bs.buffer.pop_line
  if !line.isEmpty && line.getLast? == some 10 then
    .ok (line.dropLast.dropLast, { bs with buffer := buf })
  else
    readLineLoop fuel line ((limit : Int) - line.length) buf bs.stream

end BufferedSocket

/-! ## `mhttp/files.py` — `TempFileFactory` and `TempFile` -/

/-- A finalized body: memory-backed (`TempFileSmall`) or disk-backed
(`TempFileBig`, whose file contents the model tracks as a byte list). -/
inductive TempFile where
  | small (content : Bytes)
  | big (fileContent : Bytes) (size : Nat)
  deriving DecidableEq, Repr

/-- The bytes a `TempFile` holds. -/
def TempFile.bytes : TempFile → Bytes
  | .small content => content
  | .big fileContent _ => fileContent

/-- `TempFileFactory` state: the in-memory buffer, the spill file (if open)
with its written bytes, and the running `size`. -/
structure TempFileFactory where
  content : Bytes
  size : Nat
  hasStream : Bool
  fileContent : Bytes
  max_mem_size : Nat
  deriving DecidableEq, Repr

namespace TempFileFactory

/-- `TempFileFactory(max_mem_size, encoding)` (the encoding tag plays no role
in the byte-level model). -/
def init (max_mem_size : Nat) : TempFileFactory :=
  ⟨[], 0, false, [], max_mem_size⟩

/-- `append_to_file(received)`: write-through once spilled; spill when memory
would exceed `max_mem_size`; otherwise extend the in-memory buffer. -/
def append_to_file (f : TempFileFactory) (received : Bytes) : TempFileFactory :=
  if f.hasStream then
    { f with fileContent := f.fileContent ++ received,
             size := f.size + received.length }
  else if f.content.length + received.length > f.max_mem_size then
    { f with size := f.content.length + received.length,
             hasStream := true,
             fileContent := f.content ++ received,
             content := [] }
  else
    { f with content := f.content ++ received }

/-- `get_file()`: a disk-backed file once spilled, else a memory-backed one. -/
def get_file (f : TempFileFactory) : TempFile :=
  if f.hasStream then .big f.fileContent f.size else .small f.content

end TempFileFactory

/-! ## Plain and case-insensitive dictionaries -/

/-- An insertion-ordered string dictionary (Python `dict`), as an association
list: inserting an existing key replaces the value in place, a new key is
appended. -/
abbrev AssocD := List (PyStr × PyStr)

/-- `d[k] = v` on a plain `dict`. -/
def dInsert (d : AssocD) (k v : PyStr) : AssocD :=
  match d with
  | [] => [(k, v)]
  | (k0, v0) :: t => if k0 = k then (k0, v) :: t else (k0, v0) :: dInsert t k v

/-- `d.get(k)` on a plain `dict`. -/
def dGet (d : AssocD) (k : PyStr) : Option PyStr :=
  match d with
  | [] => none
  | (k0, v0) :: t => if k0 = k then some v0 else dGet t k

/-- `k in d` on a plain `dict`. -/
def dContains (d : AssocD) (k : PyStr) : Bool :=
  (dGet d k).isSome

/-- `dict(pairs)`: build a plain dict from pairs in order (last wins). -/
def dOfPairs (pairs : List (PyStr × PyStr)) : AssocD :=
  pairs.foldl (fun d p => dInsert d p.1 p.2) []

/-- `d.update(e)` on plain dicts. -/
def dUpdate (d e : AssocD) : AssocD :=
  e.foldl (fun d p => dInsert d p.1 p.2) d

/-- `utils/mcollections/mydicts.py` `CaseInsensitiveDict.__setitem__`:
the stored key is lowercased. -/
def ciInsert (d : AssocD) (k v : PyStr) : AssocD :=
  dInsert d (pyLower k) v

/-- `CaseInsensitiveDict.get`. -/
def ciGet (d : AssocD) (k : PyStr) : Option PyStr :=
  dGet d (pyLower k)

/-- `CaseInsensitiveDict.__contains__`. -/
def ciContains (d : AssocD) (k : PyStr) : Bool :=
  dContains d (pyLower k)

/-- `CaseInsensitiveDict(d)`: re-insert every pair under its lowercased key
(`ReadOnlyDict` wrapping adds nothing observable and is elided). -/
def ciOfAssoc (d : AssocD) : AssocD :=
  d.foldl (fun acc p => ciInsert acc p.1 p.2) []

/-! ## `mhttp/constants` -/

namespace header_keys

def CONNECTION : PyStr := strChars "Connection"

def CONTENT_DISPOSITION : PyStr := strChars "Content-Disposition"

def CONTENT_ENCODING : PyStr := strChars "Content-Encoding"

def CONTENT_LANGUAGE : PyStr := strChars "Content-Language"

def CONTENT_LENGTH : PyStr := strChars "Content-Length"

def CONTENT_LOCATION : PyStr := strChars "Content-Location"

def CONTENT_TYPE : PyStr := strChars "Content-Type"

def SET_COOKIE : PyStr := strChars "Set-Cookie"

def TRANSFER_ENCODING : PyStr := strChars "Transfer-Encoding"

def TRAILER : PyStr := strChars "Trailer"

def SERVER : PyStr := strChars "Server"

end header_keys

namespace content_types

def JSON : PyStr := strChars "application/json"

def TEXT_PLAIN : PyStr := strChars "text/plain"

def MULTIPART_FORM : PyStr := strChars "multipart/form-data"

def OCTET_STREAM : PyStr := strChars "application/octet-stream"

end content_types

/-!
Modelled from the spec: the `mhttp.constants.status_codes` module is not
among the repository's source files (only its callers are); the spec's error
taxonomy (§7) gives the numeric statuses used below.
-/

namespace status_codes

def BAD_REQUEST : Int := 400

def LENGTH_REQUIRED : Int := 411

def PAYLOAD_TOO_LARGE : Int := 413

def REQUEST_TIMEOUT : Int := 408

def INTERNAL_SERVER_ERROR : Int := 500

end status_codes

/-! ## `mhttp/socket_wrapper.py` -/

/-- The allowed method set of `socket_wrapper.py`. -/
def methods : List PyStr :=
  [strChars "GET", strChars "POST", strChars "HEAD", strChars "PUT",
   strChars "DELETE", strChars "TRACE", strChars "PATCH", strChars "OPTIONS",
   strChars "CONNECT"]

/-- `split_two(string, splitter)`: split at the first occurrence, exactly two
parts required, both stripped; else `HttpError(BAD_REQUEST)`. -/
def split_two (string : PyStr) (splitter : PyStr) : Except PyErr (PyStr × PyStr) :=
  match pySplitOnce string splitter with
  | none => .error (.httpError status_codes.BAD_REQUEST)
  | some (a, b) => .ok (pyStrip a, pyStrip b)

/-- `HttpSocketWrapper` state.  `request_timeout`/`_remaining_time` are
wall-clock quantities and are elided (see the module comment); the byte
budgets are kept, as is `__bytes_read = 1024`. -/
structure HttpSocketWrapper where
  sock : BufferedSocket
  max_content_length : Int
  max_body_ram : Nat
  max_headers_size : Int
  bytes_read : Nat
  remaining_size : Int
  remaining_header_size : Int
  deriving DecidableEq, Repr

namespace HttpSocketWrapper

/-- `__init__` defaults: 30 MB content, 128 KB body RAM, 32 KB header budget. -/
def init (stream : Bytes) : HttpSocketWrapper :=
  { sock := BufferedSocket.init stream
    max_content_length := 30000000
    max_body_ram := 128000
    max_headers_size := 32000
    bytes_read := 1024
    remaining_size := 30000000
    remaining_header_size := 32000 }

/-- `reset_timers()` (the time budget is elided). -/
def reset_timers (w : HttpSocketWrapper) : HttpSocketWrapper :=
  { w with remaining_size := w.max_content_length,
           remaining_header_size := w.max_headers_size }

/-- `read_line(limit)` through `__read_stuff`: a socket `TimeoutError` becomes
`HttpError(REQUEST_TIMEOUT)`; the time-budget bookkeeping is elided. -/
def read_line (w : HttpSocketWrapper) (limit : Int) (fuel : Nat) :
    Except PyErr (Bytes × HttpSocketWrapper) :=
  match w.sock.read_line limit fuel with
  | .error .timeoutError => .error (.httpError status_codes.REQUEST_TIMEOUT)
  | .error e => .error e
  | .ok (received, sock1) => .ok (received, { w with sock := sock1 })

/-- `__read_from_socket(n)` through `__read_stuff` (the buffered-socket `read`
itself never raises in the model). -/
def read_from_socket (w : HttpSocketWrapper) (n : Nat) :
    Bytes × HttpSocketWrapper :=
  let (received, sock1) := w.sock.read n
  (received, { w with sock := sock1 })

/-- The header-line loop of `_get_headers_strings`: read and decode lines
until an empty one, each read bounded by `remaining_header_size` (which the
source never decrements). -/
def getHeadersLoop (fuel : Nat) (w : HttpSocketWrapper) (acc : List PyStr) :
    Except PyErr (List PyStr × HttpSocketWrapper) :=
  match fuel with
  | 0 => .error .timeoutError
  | fuel + 1 =>
    match w.read_line w.remaining_header_size fuel with
    | .error e => .error e
    | .ok (lineBytes, w1) =>
      match pyDecode lineBytes with
      | .error e => .error e
      | .ok line =>
        if line.isEmpty then .ok (acc.reverse, w1)
        else getHeadersLoop fuel w1 (line :: acc)

/-- `_get_headers_strings()`: reset the budgets, then collect header lines. -/
def get_headers_strings (fuel : Nat) (w : HttpSocketWrapper) :
    Except PyErr (List PyStr × HttpSocketWrapper) :=
  getHeadersLoop fuel w.reset_timers []

/-- `check_content_headers(headers, max_content_length)`. -/
def check_content_headers (headers : AssocD) (max_content_length : Int) :
    Except PyErr (Option (PyStr × Int × Option PyStr)) := do
  let transfer := dGet headers header_keys.TRANSFER_ENCODING
  let lengthRaw := dGet headers header_keys.CONTENT_LENGTH
  let length ←
    if optTruthy lengthRaw then
      match pyIntBase10 (lengthRaw.getD []) with
      | some v => pure v
      | none => throw (.httpError status_codes.LENGTH_REQUIRED)
    else pure 0
  if length < 0 then
    throw (.httpError status_codes.LENGTH_REQUIRED)
  else if length > max_content_length then
    throw (.httpError status_codes.PAYLOAD_TOO_LARGE)
  else
    let content_type := dGet headers header_keys.CONTENT_TYPE
    let encoding := dGet headers header_keys.CONTENT_ENCODING
    if transfer ≠ some (strChars "chunked") ∧ length = 0 then
      pure none
    else
      let ct := if optTruthy content_type then content_type.getD []
                else content_types.OCTET_STREAM
      if transfer = some (strChars "chunked") then pure (some (ct, 0, encoding))
      else pure (some (ct, length, encoding))

/-- `__read_chunk(factory, length)`: read `min(1024, length)` bytes at a time
into the factory until `length` is exhausted; an exhausted peer makes the
source spin (fuel). -/
def readChunk (fuel : Nat) (w : HttpSocketWrapper) (factory : TempFileFactory)
    (length : Int) : Except PyErr (HttpSocketWrapper × TempFileFactory) :=
  match fuel with
  | 0 => .error .timeoutError
  | fuel + 1 =>
    if length > 0 then
      let (received, w1) := w.read_from_socket (min w.bytes_read length.toNat)
      let factory := factory.append_to_file received
      readChunk fuel w1 factory (length - received.length)
    else .ok (w, factory)

/-- The head of each `__read_body_chunked` iteration: read the hex length line
(bounded by `len(str(self._remaining_size))`), deduct it, and apply the
source's budget check `if not self._remaining_size`, which raises
`PayloadTooLarge` exactly when the remaining budget becomes 0 (a negative
remainder passes). -/
def readChunkHeader (w : HttpSocketWrapper) (fuel : Nat) :
    Except PyErr (Int × HttpSocketWrapper) :=
  let limit : Int := (decStrLen w.remaining_size : Int)
  match w.read_line limit fuel with
  | .error e => .error e
  | .ok (lineBytes, w1) =>
    match pyIntBase16 (lineBytes.map Char.ofNat) with
    | none => .error .valueError
    | some length =>
      let w2 := { w1 with remaining_size := w1.remaining_size - length }
      if w2.remaining_size = 0 then .error (.httpError status_codes.PAYLOAD_TOO_LARGE)
      else .ok (length, w2)

/-- `__read_body_chunked(accumulator, trailer_keys)`: loop chunk header /
chunk data; a zero length terminates, reading trailers when the request
declared some, else swallowing one final `read_line(2)` `ValueError`. -/
def readBodyChunked (fuel : Nat) (w : HttpSocketWrapper) (acc : TempFileFactory)
    (trailer_keys : Option PyStr) :
    Except PyErr (Option AssocD × HttpSocketWrapper × TempFileFactory) :=
  match fuel with
  | 0 => .error .timeoutError
  | fuel + 1 =>
    match readChunkHeader w fuel with
    | .error e => .error e
    | .ok (length, w1) =>
      if length = 0 then
        if optTruthy trailer_keys then
          match w1.get_headers_strings fuel with
          | .error e => .error e
          | .ok (strs, w2) =>
            match strs.mapM (fun a => split_two a (strChars ":")) with
            | .error e => .error e
            | .ok pairs => .ok (some (dOfPairs pairs), w2, acc)
        else
          match w1.read_line 2 fuel with
          | .error .valueError => .ok (none, w1, acc)
          | .error e => .error e
          | .ok (_, w2) => .ok (none, w2, acc)
      else
        match readChunk fuel w1 acc length with
        | .error e => .error e
        | .ok (w2, acc1) => readBodyChunked fuel w2 acc1 trailer_keys

/-- `_read_body(headers)`: decide via `check_content_headers`, then read a
sized body or a chunked one (updating the header dict with any trailer),
reset the budgets and finalize the factory. -/
def read_body (fuel : Nat) (w : HttpSocketWrapper) (headers : AssocD) :
    Except PyErr (Option TempFile × AssocD × HttpSocketWrapper) :=
  match check_content_headers headers w.max_content_length with
  | .error e => .error e
  | .ok none => .ok (none, headers, w)
  | .ok (some (_content_type, length, _encoding)) =>
    let factory := TempFileFactory.init w.max_body_ram
    let trailer_keys := dGet headers header_keys.TRAILER
    let afterBody : Except PyErr (AssocD × HttpSocketWrapper × TempFileFactory) :=
      if length ≠ 0 then
        match readChunk fuel w factory length with
        | .error e => .error e
        | .ok (w1, factory1) => .ok (headers, w1, factory1)
      else
        match readBodyChunked fuel w factory trailer_keys with
        | .error e => .error e
        | .ok (trailer, w1, factory1) =>
          match trailer with
          | some t => .ok (dUpdate headers t, w1, factory1)
          | none => .ok (headers, w1, factory1)
    match afterBody with
    | .error e => .error e
    | .ok (headers1, w1, factory1) =>
      .ok (some factory1.get_file, headers1, w1.reset_timers)

end HttpSocketWrapper

/-! ## `mhttp/helpers.py` -/

/-- `is_text(content_type)`: major type `text`, or `application/` with one of
the listed subtypes.  A content type with more than one `/` makes the source's
two-name unpacking raise `ValueError`. -/
def is_text (content_type : PyStr) : Except PyErr Bool :=
  match pySplitAll (strChars "/") content_type with
  | [_] => .ok false
  | [mime_type, subtype] =>
    if mime_type = strChars "text" then .ok true
    else if mime_type ≠ strChars "application" then .ok false
    else .ok (([strChars "json", strChars "ld+json", strChars "x-httpd-php",
                strChars "x-sh", strChars "x-csh", strChars "xhtml+xml",
                strChars "xml"]).contains subtype)
  | _ => .error .valueError

/-- `get_header_param(header, param)`: literal search for `param=`; the value
runs to the next `;` or the end. -/
def get_header_param (header : PyStr) (param : PyStr) : Option PyStr :=
  let header := pyStrip header
  let param_start := pyFind header (param ++ strChars "=")
  if param_start = -1 then none
  else
    let param_start := (param_start + param.length + 1).toNat
    let param_end := pyFindRange header (strChars ";") param_start header.length
    let param_end := if param_end = -1 then (header.length : Int) else param_end
    some (pySlice header param_start param_end.toNat)

/-! ## `mhttp/messages.py` — `HttpRequest` -/

/-- The request object: headers live behind
`ReadOnlyDict(CaseInsensitiveDict(...))`, so `headers` below already has
lowercased keys. -/
structure HttpRequestM where
  protocol : PyStr
  route : PyStr
  method : PyStr
  args : AssocD
  headers : AssocD
  cookies : AssocD
  body : Option TempFile
  deriving DecidableEq, Repr

/-- `HttpRequest.keep_connection`: the `Connection` header, lowercased, equals
`keep-alive`; a missing (or empty) header defaults to `keep-alive`. -/
def HttpRequestM.keep_connection (r : HttpRequestM) : Bool :=
  let option := ciGet r.headers header_keys.CONNECTION
  let option := if optTruthy option then pyLower (option.getD [])
                else strChars "keep-alive"
  option = strChars "keep-alive"

namespace HttpSocketWrapper

/-- `dict(split_two(item, sep2) for item in s.split(sep1))` as the source
builds query args and cookies. -/
def splitPairsDict (s : PyStr) (sep1 sep2 : PyStr) : Except PyErr AssocD := do
  let parts := pySplitAll sep1 s
  let pairs ← parts.mapM (fun item => split_two item sep2)
  pure (dOfPairs pairs)

/-- The header-line classification loop of `get_request`: `Cookie` lines merge
into the cookie dict, everything else goes to the header dict (last wins). -/
def collectHeaderLines (lines : List PyStr) (headers cookies : AssocD) :
    Except PyErr (AssocD × AssocD) :=
  match lines with
  | [] => .ok (headers, cookies)
  | line :: rest => do
    let (title, content) ← split_two line (strChars ":")
    if title = strChars "Cookie" then
      let a ← splitPairsDict content (strChars ";") (strChars "=")
      collectHeaderLines rest headers (dUpdate cookies a)
    else
      collectHeaderLines rest (dInsert headers title content) cookies

/-- `ServerSocketWrapper.get_request()`.  Note the source's invalid-method
branch raises a bare `ValueError` (with `HttpError`-style arguments), not an
`HttpError`. -/
def get_request (fuel : Nat) (w : HttpSocketWrapper) :
    Except PyErr (HttpRequestM × HttpSocketWrapper) := do
  let (header_strings, w) ← w.get_headers_strings fuel
  let first ←
    match header_strings.head? with
    | none => throw .indexError   -- header_strings[0] on an empty list
    | some a => pure a
  let a := pySplitAll (strChars " ") first
  match a with
  | [method, url, protocol] =>
    let x := pySplitOnce url (strChars "?")
    let route := match x with | some (r, _) => r | none => url
    let args ←
      match x with
      | some (_, query) => splitPairsDict query (strChars "&") (strChars "=")
      | none => pure ([] : AssocD)
    if methods.contains method then do
      let (headers, cookies) ← collectHeaderLines header_strings.tail [] []
      let (body, headers, w) ← w.read_body fuel headers
      pure (⟨protocol, route, method, args, ciOfAssoc headers, cookies, body⟩, w)
    else
      throw .valueError   -- `raise ValueError(status_codes.BAD_REQUEST, ...)`
  | _ => throw (.httpError status_codes.BAD_REQUEST)

end HttpSocketWrapper

/-! ## `mhttp/messages.py` — `HttpResponse` -/

/-- `d.pop`/`del d[k]` on a plain dict. -/
def dRemove (d : AssocD) (k : PyStr) : AssocD :=
  d.filter (fun p => p.1 ≠ k)

/-- `del headers[key]` on a `CaseInsensitiveDict`. -/
def ciRemove (d : AssocD) (k : PyStr) : AssocD :=
  dRemove d (pyLower k)

/-- Python `list.remove(x)`: drop the first occurrence, `ValueError` when the
element is absent. -/
def pyListRemove [DecidableEq α] : List α → α → Except PyErr (List α)
  | [], _ => .error .valueError
  | a :: t, x =>
    if a = x then .ok t
    else (pyListRemove t x).map (fun t1 => a :: t1)

/-- Python `sep.join(parts)`. -/
def pyJoin (sep : PyStr) (parts : List PyStr) : PyStr :=
  List.intercalate sep parts

/-- Modelled from the spec: the reason-phrase table is loaded from
`http-status-codes.json`, a bundled data file that is not among the source
files; per the spec it is the registered integer→phrase table, of which the
entries reachable in this development suffice. -/
def statusTable : List (Int × PyStr) :=
  [(200, strChars "OK"), (400, strChars "Bad Request"),
   (404, strChars "Not Found"), (408, strChars "Request Timeout"),
   (411, strChars "Length Required"), (413, strChars "Payload Too Large"),
   (500, strChars "Internal Server Error")]

/-- `_get_status_title(code)`: `ValueError` on an unknown code. -/
def get_status_title (code : Int) : Except PyErr PyStr :=
  match statusTable.find? (fun p => p.1 = code) with
  | some p => .ok p.2
  | none => .error .valueError

/-- The scan loop of `_capitalize_header`: uppercase every character that
follows a `-` (re-examining the uppercased character, as the source's
`index('-', start)` resumes at it).  Fuel-structural; the fuel is a bound on
the string length. -/
def capAfterDashAux : Nat → PyStr → PyStr
  | 0, s => s
  | _, [] => []
  | _ + 1, ['-'] => ['-']
  | fuel + 1, '-' :: c :: t => '-' :: capAfterDashAux fuel (c.toUpper :: t)
  | fuel + 1, c :: t => c :: capAfterDashAux fuel t

/-- See `capAfterDashAux`. -/
def capAfterDash (s : PyStr) : PyStr :=
  capAfterDashAux s.length s

/-- `_capitalize_header(header)`: uppercase the first character and each one
after a `-`.  (On an empty name the source raises `IndexError`; header names
are never empty in this development.) -/
def capitalize_header (s : PyStr) : PyStr :=
  match s with
  | [] => []
  | c :: t => capAfterDash (c.toUpper :: t)

/-- The response object.  `body` is the opaque stream object (its bytes);
cookies map a name to the rendered `str(cookie)` text (`HttpCookie.__str__`
formatting does not bear on any claim). -/
structure HttpResponseM where
  protocol : Option PyStr
  code : Int
  headers : AssocD
  cookies : List (PyStr × PyStr)
  body : Option Bytes
  first_headers : List PyStr
  last_headers : List PyStr
  deriving DecidableEq, Repr

namespace HttpResponseM

/-- The class attribute `first_headers = (SERVER,)`. -/
def firstHeadersDefault : List PyStr :=
  [header_keys.SERVER]

/-- The class attribute `last_headers`: note the source tuple lists
`TRANSFER_ENCODING` twice (lines 222–229 of `messages.py`). -/
def lastHeadersDefault : List PyStr :=
  [header_keys.TRAILER, header_keys.CONTENT_DISPOSITION,
   header_keys.CONTENT_TYPE, header_keys.TRANSFER_ENCODING,
   header_keys.CONTENT_LANGUAGE, header_keys.CONTENT_LOCATION,
   header_keys.TRANSFER_ENCODING, header_keys.CONTENT_LENGTH]

/-- `__set_content_length(value)`. -/
def set_content_length (r : HttpResponseM) (value : Int) : HttpResponseM :=
  let value := max value 0
  { r with headers := ciInsert r.headers header_keys.CONTENT_LENGTH (intStr value) }

/-- `HttpResponse(body=None, code)`: no protocol yet, empty case-insensitive
header dict, `Content-Length: 0`. -/
def init (code : Int) : HttpResponseM :=
  set_content_length
    ⟨none, code, [], [], none, firstHeadersDefault, lastHeadersDefault⟩ 0

/-- `remove_header(key)`. -/
def remove_header (r : HttpResponseM) (key : PyStr) : HttpResponseM :=
  if ciContains r.headers key then { r with headers := ciRemove r.headers key }
  else r

/-- `_set_chunked()`: drop `Content-Length`, then ensure the
`Transfer-Encoding` value contains the substring `chunked`. -/
def set_chunked (r : HttpResponseM) : HttpResponseM :=
  let r := r.remove_header header_keys.CONTENT_LENGTH
  let te := ciGet r.headers header_keys.TRANSFER_ENCODING
  if !optTruthy te then
    { r with headers := ciInsert r.headers header_keys.TRANSFER_ENCODING
                          (strChars "chunked") }
  else if !pyContains (te.getD []) (strChars "chunked") then
    { r with headers := ciInsert r.headers header_keys.TRANSFER_ENCODING
                          (te.getD [] ++ strChars ",chunked") }
  else r

/-- `_un_chunked()`: remove the `chunked` token from the lowercased
comma-split `Transfer-Encoding` list (Python `list.remove` raises `ValueError`
when `chunked` occurs only inside another token). -/
def un_chunked (r : HttpResponseM) : Except PyErr HttpResponseM :=
  let te := ciGet r.headers header_keys.TRANSFER_ENCODING
  if !optTruthy te then .ok r
  else if pyContains (te.getD []) (strChars "chunked") then do
    let parts := pySplitAll (strChars ",") (pyLower (te.getD []))
    let parts ← pyListRemove parts (strChars "chunked")
    let te1 := pyJoin (strChars ",") parts
    if te1.isEmpty then
      .ok { r with headers := ciRemove r.headers header_keys.TRANSFER_ENCODING }
    else
      .ok { r with headers := ciInsert r.headers header_keys.TRANSFER_ENCODING te1 }
  else .ok r

/-- `set_body_stream(body, size)`: a truthy size makes the body sized, else
chunked (`if size:` also treats a zero size as chunked). -/
def set_body_stream (r : HttpResponseM) (body : Bytes) (size : Option Int) :
    Except PyErr HttpResponseM :=
  let r := { r with body := some body }
  match size with
  | some s => if s ≠ 0 then (r.set_content_length s).un_chunked else .ok r.set_chunked
  | none => .ok r.set_chunked

/-- `is_chunked`. -/
def is_chunked (r : HttpResponseM) : Bool :=
  ciContains r.headers header_keys.TRANSFER_ENCODING

/-- `HttpResponse.keep_connection` (same logic as on the request). -/
def keep_connection (r : HttpResponseM) : Bool :=
  let option := ciGet r.headers header_keys.CONNECTION
  let option := if optTruthy option then pyLower (option.getD [])
                else strChars "keep-alive"
  option = strChars "keep-alive"

/-- One emitted header line `f"{_capitalize_header(h)}: {value}"`. -/
def headerLine (h v : PyStr) : PyStr :=
  capitalize_header h ++ strChars ": " ++ v

/-- The `lines` list `get_header_string` builds: status line, the "first" set,
all other headers in storage order, `Set-Cookie` lines, then the "last" set
(in tuple order, including its duplicate entry). -/
def get_header_lines (r : HttpResponseM) : Except PyErr (List PyStr) := do
  if !optTruthy r.protocol then throw .valueError   -- "Protocol not set"
  let title ← get_status_title r.code
  let status := r.protocol.getD [] ++ ' ' :: (intStr r.code ++ ' ' :: title)
  let firstLines := r.first_headers.filterMap fun h =>
    if ciContains r.headers h then some (headerLine h ((ciGet r.headers h).getD []))
    else none
  let notMiddle := (r.first_headers ++ r.last_headers).map pyLower
  let middleLines := r.headers.filterMap fun p =>
    if notMiddle.contains p.1 then none else some (headerLine p.1 p.2)
  let cookieLines := r.cookies.map fun p =>
    header_keys.SET_COOKIE ++ strChars ": " ++ p.2
  let lastLines := r.last_headers.filterMap fun h =>
    if ciContains r.headers h then some (headerLine h ((ciGet r.headers h).getD []))
    else none
  pure ((status :: (firstLines ++ middleLines ++ cookieLines ++ lastLines))
          ++ [strChars "\r\n"])

/-- `get_header_string()`: the lines joined by CRLF. -/
def get_header_string (r : HttpResponseM) : Except PyErr PyStr :=
  (r.get_header_lines).map (pyJoin (strChars "\r\n"))

end HttpResponseM

/-! ## `mhttp/server.py` — connection-loop error handling -/

/-- Which status the `handle_client` `except` ladder emits when reading the
request raises `e`: an `HttpError`'s own code; nothing on `OSError` (Python's
`TimeoutError` is an `OSError`); 500 on any other exception. -/
def errorStatusOf : PyErr → Option Int
  | .httpError c => some c
  | .osError => none
  | .timeoutError => none
  | _ => some status_codes.INTERNAL_SERVER_ERROR

/-- The loop-control outcome of one `handle_client` iteration, with the
handler abstracted to its result: every `except` arm breaks, and after a
successful exchange the loop continues iff `response.keep_connection`
(`server.py` line 107 consults only the response). -/
def handleClientContinue (reqResult : Except PyErr HttpRequestM)
    (handler : HttpRequestM → Except PyErr HttpResponseM) : Bool :=
  match reqResult with
  | .error _ => false
  | .ok request =>
    match handler request with
    | .error _ => false
    | .ok response => response.keep_connection

/-! ## `mhttp/form.py` -/

/-- A seekable byte stream (a fresh reader over the finalized body bytes). -/
structure PyStream where
  data : Bytes
  pos : Nat
  deriving DecidableEq, Repr

namespace PyStream

/-- `stream.read(n)` (`n = -1` reads to EOF). -/
def read (s : PyStream) (n : Int) : Bytes × PyStream :=
  let avail := s.data.length - s.pos
  let k := if n < 0 then avail else min n.toNat avail
  (pySlice s.data s.pos (s.pos + k), { s with pos := s.pos + k })

/-- `stream.readline()`: through the next `\n` inclusive, or to EOF. -/
def readline (s : PyStream) : Bytes × PyStream :=
  let rest := s.data.drop s.pos
  match rest.findIdx? (· == 10) with
  | some i => (rest.take (i + 1), { s with pos := s.pos + i + 1 })
  | none => (rest, { s with pos := s.data.length })

/-- `stream.seek(off)` (absolute). -/
def seek (s : PyStream) (off : Nat) : PyStream :=
  { s with pos := off }

/-- `stream.tell()`. -/
def tell (s : PyStream) : Nat :=
  s.pos

end PyStream

/-- Insert into an insertion-ordered dict with arbitrary values. -/
def dInsertAny (d : List (PyStr × β)) (k : PyStr) (v : β) : List (PyStr × β) :=
  match d with
  | [] => [(k, v)]
  | (k0, v0) :: t => if k0 = k then (k0, v) :: t else (k0, v0) :: dInsertAny t k v

/-- `FormMetadata`: the parsed per-part metadata.  `guessExt` stands for the
standard library's `mimetypes.guess_extension` MIME-type→extension map (an
external collaborator of `form.py`). -/
structure FormMetadata where
  name : PyStr
  filename : Option PyStr
  headers : AssocD
  deriving DecidableEq, Repr

namespace FormMetadata

/-- `FormMetadata.__init__(headers)`: require a `Content-Disposition` `name`;
default the content type; unquote the filename, or synthesize one for a
non-text part: `self.filename = self.name + ext if ext else '.bin'`, which by
Python operator precedence is `(self.name + ext) if ext else '.bin'`. -/
def make (guessExt : PyStr → Option PyStr) (headers : AssocD) :
    Except PyErr FormMetadata := do
  if !ciContains headers header_keys.CONTENT_DISPOSITION then
    throw (.httpError status_codes.BAD_REQUEST)
  let cd := (ciGet headers header_keys.CONTENT_DISPOSITION).getD []
  let name := get_header_param cd (strChars "name")
  if !optTruthy name then throw (.httpError status_codes.BAD_REQUEST)
  let nameR := pyEraseChar (name.getD []) '"'
  let filename := get_header_param cd (strChars "filename")
  let headers :=
    if !ciContains headers header_keys.CONTENT_TYPE then
      if !optTruthy filename then
        ciInsert headers header_keys.CONTENT_TYPE content_types.TEXT_PLAIN
      else
        ciInsert headers header_keys.CONTENT_TYPE content_types.OCTET_STREAM
    else headers
  if optTruthy filename then
    pure ⟨nameR, some (pyEraseChar (filename.getD []) '"'), headers⟩
  else do
    let ct := (ciGet headers header_keys.CONTENT_TYPE).getD []
    let textp ← is_text ct
    if !textp then
      let ext := guessExt ct
      let fn := if optTruthy ext then nameR ++ ext.getD [] else strChars ".bin"
      pure ⟨nameR, some fn, headers⟩
    else
      pure ⟨nameR, filename, headers⟩

/-- `is_file`: a truthy filename. -/
def is_file (m : FormMetadata) : Bool :=
  optTruthy m.filename

end FormMetadata

/-- `_meta_length(metadata)`.  (A file field always carries a filename; on a
`None` filename the source would raise `AttributeError`.) -/
def meta_length (m : FormMetadata) : Nat :=
  (pyEncode m.name).length + (pyEncode (m.filename.getD [])).length +
    m.headers.foldl (fun acc p => acc + (pyEncode p.1).length + (pyEncode p.2).length) 0

/-- `FormReader` state. -/
structure FormReader where
  inner : PyStream
  boundary : Bytes
  boundary_with_nl : Bytes
  buffer : FifoBuffer
  field_end : Bool
  initFlag : Bool
  deriving DecidableEq, Repr

namespace FormReader

/-- `FormReader(s, boundary)`. -/
def init (s : PyStream) (boundary : PyStr) : FormReader :=
  let b := strBytes "--" ++ pyEncode boundary
  ⟨s, b, strBytes "\r\n" ++ b, FifoBuffer.init 1024, true, false⟩

/-- `__read(bytes_num)`: buffered bytes first, topped up from the stream. -/
def fread (fr : FormReader) (bytes_num : Nat) : Bytes × FormReader :=
  let (read, buf) := fr.buffer.pop bytes_num
  if read.length ≠ bytes_num then
    let (extra, inner) := fr.inner.read ((bytes_num - read.length : Nat) : Int)
    (read ++ extra, { fr with buffer := buf, inner := inner })
  else
    (read, { fr with buffer := buf })

/-- `__readline()`: a buffered line, completed from the stream when the buffer
held no terminated line; the final `line[:-2]` always strips two bytes. -/
def freadline (fr : FormReader) : Bytes × FormReader :=
  let (line, buf) := fr.buffer.pop_line
  let (line, fr) :=
    if line.isEmpty || line.getLast? ≠ some 10 then
      let (extra, inner) := fr.inner.readline
      (line ++ extra, { fr with buffer := buf, inner := inner })
    else
      (line, { fr with buffer := buf })
  (line.dropLast.dropLast, fr)

/-- `tell()` = inner position minus buffered backlog. -/
def tell (fr : FormReader) : Int :=
  (fr.inner.tell : Int) - fr.buffer.length

/-- The `while True` loop of `FormReader.read`: scan a window of
`bytes_num + len(boundary_with_nl)` bytes for a boundary straddle. -/
def readLoop (fuel : Nat) (fr : FormReader) (bytes_num : Int) (t : Bytes) :
    Except PyErr (Bytes × FormReader) :=
  match fuel with
  | 0 => .error .timeoutError
  | fuel + 1 =>
    let n : Nat := if bytes_num = -1 then 1024 else bytes_num.toNat
    let (a, fr) := fr.fread n
    let (buff, fr) := fr.fread fr.boundary_with_nl.length
    let total := a ++ buff
    match pySplitOnce total fr.boundary_with_nl with
    | some (rest, for_next) =>
      let fr := { fr with field_end := true, buffer := fr.buffer.push for_next }
      .ok (t ++ rest, fr)   -- `t + rest` if t else `rest`
    | none =>
      let fr := { fr with buffer := fr.buffer.push buff }
      if bytes_num ≠ -1 then .ok (a, fr)
      else readLoop fuel fr bytes_num (t ++ a)

/-- `read(bytes_num)`: empty once the field ended. -/
def read (fuel : Nat) (fr : FormReader) (bytes_num : Int) :
    Except PyErr (Bytes × FormReader) :=
  if fr.field_end then .ok ([], fr)
  else readLoop fuel fr bytes_num []

/-- `__skip_to_end()`. -/
def skipToEnd (fuel : Nat) (fr : FormReader) : Except PyErr FormReader :=
  match fuel with
  | 0 => .error .timeoutError
  | fuel + 1 => do
    let (a, fr) ← fr.read fuel 1024
    if a.isEmpty then pure fr else skipToEnd fuel fr

/-- The part-header loop of `next_field` (the loop guard `while read:` is
always true there; the loop leaves via `break` on a blank line or raises). -/
def headersLoop (fuel : Nat) (fr : FormReader) (headers : AssocD) :
    Except PyErr (AssocD × FormReader) :=
  match fuel with
  | 0 => .error .timeoutError
  | fuel + 1 =>
    let (line, fr) := fr.freadline
    if line = fr.boundary then .error (.httpError status_codes.BAD_REQUEST)
    else if line.isEmpty then .ok (headers, fr)
    else
      match pySplitOnce line (strBytes ":") with
      | none => .error (.httpError status_codes.BAD_REQUEST)
      | some (k, v) => do
        let k ← pyDecode k
        let v ← pyDecode v
        headersLoop fuel fr (ciInsert headers (pyStrip k) (pyStrip v))

/-- `next_field()`. -/
def next_field (guessExt : PyStr → Option PyStr) (fuel : Nat) (fr : FormReader) :
    Except PyErr (Option FormMetadata × FormReader) := do
  let fr :=
    if !fr.initFlag then
      { fr with inner := fr.inner.seek fr.boundary.length, initFlag := true }
    else fr
  let fr ← if !fr.field_end then skipToEnd fuel fr else pure fr
  let (read, fr) := fr.fread 2
  if read.isEmpty || read = strBytes "--" then pure (none, fr)
  else do
    let (headers, fr) ← headersLoop fuel fr []
    let meta ← FormMetadata.make guessExt headers
    pure (some meta, { fr with field_end := false })

/-- `copy_field(dest)` via `shutil.copyfileobj`: drain the field in chunks;
the model returns the bytes that land in the destination file. -/
def copyFieldLoop (fuel : Nat) (fr : FormReader) (acc : Bytes) :
    Except PyErr (Bytes × FormReader) :=
  match fuel with
  | 0 => .error .timeoutError
  | fuel + 1 => do
    let (chunk, fr) ← fr.read fuel 65536
    if chunk.isEmpty then pure (acc, fr)
    else copyFieldLoop fuel fr (acc ++ chunk)

end FormReader

/-- `_read_to_limit(reader, limit)`: accumulate the field, raising
`PayloadTooLarge` once the running size exceeds the limit. -/
def read_to_limit (fuel : Nat) (reader : FormReader) (limit : Int) (total : Bytes) :
    Except PyErr (PyStr × FormReader) :=
  match fuel with
  | 0 => .error .timeoutError
  | fuel + 1 => do
    let (bytes_read, reader) ← reader.read fuel 1024
    if bytes_read.isEmpty then
      match pyDecode total with
      | .error e => throw e
      | .ok s => pure (s, reader)
    else
      let limit := limit - bytes_read.length
      if limit < 0 then throw (.httpError status_codes.PAYLOAD_TOO_LARGE)
      else read_to_limit fuel reader limit (total ++ bytes_read)

/-- A `FormFile`: the lazily opened view `[offset, offset+size)` over a fresh
stream (`_relative_stream_opener`). -/
structure FormFileM where
  name : PyStr
  filename : Option PyStr
  headers : AssocD
  offset : Int
  size : Nat
  deriving DecidableEq, Repr

/-- A `CopiedFile`: a file field streamed to `folder/filename`, with the bytes
the model wrote there. -/
structure CopiedFileM where
  name : PyStr
  filename : Option PyStr
  headers : AssocD
  path : PyStr
  written : Bytes
  deriving DecidableEq, Repr

/-- A value of the `files` dictionary `parse_form` returns. -/
inductive FormFileEntry where
  | copied (c : CopiedFileM)
  | lazy (f : FormFileM)
  deriving DecidableEq, Repr

/-- The inner `while True` of the folder-less file branch of `parse_form`:
count the field's bytes. -/
def parseFileLoop (fuel : Nat) (fr : FormReader) (total : Nat) :
    Except PyErr (Nat × FormReader) :=
  match fuel with
  | 0 => .error .timeoutError
  | fuel + 1 => do
    let (chunk, fr) ← fr.read fuel 1024
    let total := total + chunk.length
    if chunk.isEmpty then pure (total, fr) else parseFileLoop fuel fr total

/-- The `for i in range(max_entries)` loop of `parse_form`; an exhausted
countdown is the source's closing `raise HttpError(PAYLOAD_TOO_LARGE, "Too
many form fields...")`. -/
def parseFormLoop (guessExt : PyStr → Option PyStr) (fuel : Nat)
    (folder : Option PyStr) (countdown : Nat) (fr : FormReader)
    (files : List (PyStr × FormFileEntry)) (fields : AssocD) (max_mem : Int) :
    Except PyErr (List (PyStr × FormFileEntry) × AssocD) :=
  match countdown with
  | 0 => .error (.httpError status_codes.PAYLOAD_TOO_LARGE)
  | countdown + 1 => do
    let (metaOpt, fr) ← fr.next_field guessExt fuel
    match metaOpt with
    | none => pure (files, fields)
    | some metadata =>
      if metadata.is_file then
        match folder with
        | some f =>
          -- `continue` after a copied file skips the budget check below
          let dest := f ++ strChars "/" ++ metadata.filename.getD []
          let (written, fr) ← FormReader.copyFieldLoop fuel fr []
          let files := dInsertAny files metadata.name
            (.copied ⟨metadata.name, metadata.filename, metadata.headers, dest, written⟩)
          parseFormLoop guessExt fuel folder countdown fr files fields
            (max_mem - meta_length metadata)
        | none => do
          let offset := fr.tell
          let (total, fr) ← parseFileLoop fuel fr 0
          let files := dInsertAny files metadata.name
            (.lazy ⟨metadata.name, metadata.filename, metadata.headers, offset, total⟩)
          let max_mem := max_mem - meta_length metadata
          if max_mem < 0 then throw (.httpError status_codes.PAYLOAD_TOO_LARGE)
          else parseFormLoop guessExt fuel folder countdown fr files fields max_mem
      else do
        let max_mem := max_mem - metadata.name.length
        let (value, fr) ← read_to_limit fuel fr max_mem []
        let max_mem := max_mem - value.length
        let fields := dInsert fields metadata.name value
        if max_mem < 0 then throw (.httpError status_codes.PAYLOAD_TOO_LARGE)
        else parseFormLoop guessExt fuel folder countdown fr files fields max_mem

/-- `parse_form(boundary, stream_func, folder, max_mem, max_entries)`:
`streamData` is what `stream_func()` yields a fresh reader over. -/
def parse_form (guessExt : PyStr → Option PyStr) (fuel : Nat) (boundary : PyStr)
    (streamData : Bytes) (folder : Option PyStr) (max_mem : Int)
    (max_entries : Nat) : Except PyErr (List (PyStr × FormFileEntry) × AssocD) :=
  let fr := FormReader.init ⟨streamData, 0⟩ boundary
  parseFormLoop guessExt fuel folder max_entries fr [] [] max_mem

/-! ## `mhttp/session.py` and its collaborators -/

/-- The standard base64 alphabet. -/
def b64Alphabet : PyStr :=
  strChars "ABCDEFGHIJKLMNOPQRSTUVWXYZabcdefghijklmnopqrstuvwxyz0123456789+/"

/-- Character for a 6-bit group. -/
def b64Char (n : Nat) : Char :=
  b64Alphabet.getD n 'A'

/-- `base64.b64encode(bytes).decode()`: standard padded base64. -/
def b64encode : Bytes → PyStr
  | [] => []
  | [a] => [b64Char (a / 4), b64Char (a % 4 * 16), '=', '=']
  | [a, b] => [b64Char (a / 4), b64Char (a % 4 * 16 + b / 16), b64Char (b % 16 * 4), '=']
  | a :: b :: c :: t =>
    b64Char (a / 4) :: b64Char (a % 4 * 16 + b / 16) ::
      b64Char (b % 16 * 4 + c / 64) :: b64Char (c % 64) :: b64encode t

/-- 32-bit right rotation. -/
def rotr32 (n x : Nat) : Nat :=
  ((x >>> n) ||| (x <<< (32 - n))) % 2 ^ 32

/-- The SHA-256 round constants (FIPS 180-4), written in decimal. -/
def sha256K : List Nat :=
  [1116352408, 1899447441, 3049323471, 3921009573, 961987163, 1508970993,
   2453635748, 2870763221, 3624381080, 310598401, 607225278, 1426881987,
   1925078388, 2162078206, 2614888103, 3248222580, 3835390401, 4022224774,
   264347078, 604807628, 770255983, 1249150122, 1555081692, 1996064986,
   2554220882, 2821834349, 2952996808, 3210313671, 3336571891, 3584528711,
   113926993, 338241895, 666307205, 773529912, 1294757372, 1396182291,
   1695183700, 1986661051, 2177026350, 2456956037, 2730485921, 2820302411,
   3259730800, 3345764771, 3516065817, 3600352804, 4094571909, 275423344,
   430227734, 506948616, 659060556, 883997877, 958139571, 1322822218,
   1537002063, 1747873779, 1955562222, 2024104815, 2227730452, 2361852424,
   2428436474, 2756734187, 3204031479, 3329325298]

/-- The SHA-256 initial hash words (FIPS 180-4), written in decimal. -/
def sha256H0 : List Nat :=
  [1779033703, 3144134277, 1013904242, 2773480762,
   1359893119, 2600822924, 528734635, 1541459225]

/-- SHA-256 padding: `0x80`, zeros, then the bit length as 8 big-endian bytes. -/
def sha256Pad (msg : Bytes) : Bytes :=
  let len := msg.length
  let zeros := (119 - len % 64) % 64
  let bitLen := len * 8 % 2 ^ 64
  msg ++ 128 :: List.replicate zeros 0 ++
    ((List.range 8).map fun i => bitLen / 2 ^ (8 * (7 - i)) % 256)

/-- Big-endian 32-bit words of a byte list. -/
def bytesToWords32 : Bytes → List Nat
  | a :: b :: c :: d :: t => (((a * 256 + b) * 256 + c) * 256 + d) :: bytesToWords32 t
  | _ => []

/-- Extend 16 message words to 64. -/
def sha256Extend (w : List Nat) (rounds : Nat) : List Nat :=
  match rounds with
  | 0 => w
  | rounds + 1 =>
    let i := w.length
    let w15 := w.getD (i - 15) 0
    let w2 := w.getD (i - 2) 0
    let s0 := rotr32 7 w15 ^^^ rotr32 18 w15 ^^^ (w15 >>> 3)
    let s1 := rotr32 17 w2 ^^^ rotr32 19 w2 ^^^ (w2 >>> 10)
    sha256Extend (w ++ [(w.getD (i - 16) 0 + s0 + w.getD (i - 7) 0 + s1) % 2 ^ 32]) rounds

/-- One SHA-256 compression round. -/
def sha256Round (st : List Nat) (k w : Nat) : List Nat :=
  match st with
  | [a, b, c, d, e, f, g, h] =>
    let s1 := rotr32 6 e ^^^ rotr32 11 e ^^^ rotr32 25 e
    let ch := (e &&& f) ^^^ ((2 ^ 32 - 1 - e) &&& g)
    let temp1 := (h + s1 + ch + k + w) % 2 ^ 32
    let s0 := rotr32 2 a ^^^ rotr32 13 a ^^^ rotr32 22 a
    let maj := (a &&& b) ^^^ (a &&& c) ^^^ (b &&& c)
    let temp2 := (s0 + maj) % 2 ^ 32
    [(temp1 + temp2) % 2 ^ 32, a, b, c, (d + temp1) % 2 ^ 32, e, f, g]
  | st => st

/-- Compress one 64-byte block into the running hash words. -/
def sha256Block (h : List Nat) (block : Bytes) : List Nat :=
  let w := sha256Extend (bytesToWords32 block) 48
  let st := (List.zip sha256K w).foldl (fun st p => sha256Round st p.1 p.2) h
  (List.zip h st).map fun p => (p.1 + p.2) % 2 ^ 32

/-- Block-splitting worker (fuel-structural; the fuel bounds the block count). -/
def chunks64Aux : Nat → Bytes → List Bytes
  | 0, _ => []
  | fuel + 1, l =>
    match l with
    | [] => []
    | l => l.take 64 :: chunks64Aux fuel (l.drop 64)

/-- Split into 64-byte blocks. -/
def chunks64 (l : Bytes) : List Bytes :=
  chunks64Aux (l.length + 1) l

/-- `hashlib.sha256(msg).digest()`. -/
def sha256 (msg : Bytes) : Bytes :=
  let h := (chunks64 (sha256Pad msg)).foldl sha256Block sha256H0
  h.flatMap fun word => (List.range 4).map fun i => word / 2 ^ (8 * (3 - i)) % 256

/-- `utils/mcollections/expiring_dict.py` `ExpiringDict`: entries carry their
expiry instant; `time.time()` becomes an explicit `now` argument.  The
reentrant lock is elided (single-threaded model). -/
structure ExpiringDict (V : Type) where
  ttl : Nat
  old_len : Nat
  entries : List (PyStr × V × Nat)
  deriving Repr

namespace ExpiringDict

/-- `ExpiringDict(ttl)`. -/
def init (ttl : Nat) : ExpiringDict V :=
  ⟨ttl, 0, []⟩

/-- Raw `dict.get` on the backing dict (no expiry logic). -/
def lookupRaw (d : ExpiringDict V) (k : PyStr) : Option (V × Nat) :=
  (d.entries.find? fun e => e.1 = k).map fun e => e.2

/-- `del self.__dict[key]` (no error when absent matters to the model's
callers, which guard with membership or `delete`). -/
def removeRaw (d : ExpiringDict V) (k : PyStr) : ExpiringDict V :=
  { d with entries := d.entries.filter fun e => e.1 ≠ k }

/-- `expire(now=False)`: sweep only when the dict has doubled since the last
sweep; `expire(now=True)` always sweeps.  Expired means `exp < time()`. -/
def expire (d : ExpiringDict V) (now : Nat) (force : Bool) : ExpiringDict V :=
  if !force && !(d.old_len * 2 ≤ d.entries.length) then d
  else
    let entries := d.entries.filter fun e => !(e.2.2 < now)
    { d with entries := entries, old_len := entries.length }

/-- `__setitem__`: store `(value, time() + ttl)` then run the lazy sweep. -/
def setItem (d : ExpiringDict V) (now : Nat) (k : PyStr) (v : V) : ExpiringDict V :=
  let d := { d with entries := dInsertAny d.entries k (v, now + d.ttl) }
  d.expire now false

/-- `get(key)`: `None` when absent; delete and return `None` when expired
(`exp <= time()`); otherwise touch (reinsert, resetting the TTL) and return. -/
def get (d : ExpiringDict V) (now : Nat) (k : PyStr) : Option V × ExpiringDict V :=
  match d.lookupRaw k with
  | none => (none, d)
  | some (v, exp) =>
    if exp ≤ now then (none, d.removeRaw k)
    else (some v, d.setItem now k v)

/-- `__contains__`: `key in self.__dict` — the raw backing dict, no expiry
check and, crucially, the raw key. -/
def containsRaw (d : ExpiringDict V) (k : PyStr) : Bool :=
  (d.lookupRaw k).isSome

/-- `delete(key)`: remove, ignoring a missing key. -/
def delete (d : ExpiringDict V) (k : PyStr) : ExpiringDict V :=
  d.removeRaw k

end ExpiringDict

/-- `SessionManager`: sessions are stored under
`base64(hasher(key).digest())`; the hasher is injected (default
`hashlib.sha256`, modelled bytes→digest-bytes). -/
structure SessionManager (V : Type) where
  dict : ExpiringDict V
  hasher : Bytes → Bytes

namespace SessionManager

/-- `SessionManager(session_ttl_seconds, hasher)`. -/
def init (ttl : Nat) (hasher : Bytes → Bytes) : SessionManager V :=
  ⟨ExpiringDict.init ttl, hasher⟩

/-- `b64hash(inp)`: base64 of the digest of the encoded input. -/
def b64hash (m : SessionManager V) (inp : PyStr) : PyStr :=
  b64encode (m.hasher (pyEncode inp))

/-- `set_session(session_key, session_data)`: store under the hash. -/
def set_session (m : SessionManager V) (now : Nat) (key : PyStr) (v : V) :
    SessionManager V :=
  { m with dict := m.dict.setItem now (m.b64hash key) v }

/-- `add_session(session_data)`: the token is `base64(token_bytes)` where
`token_bytes` is `secrets.token_bytes(32)`, an explicit entropy argument in
the model. -/
def add_session (m : SessionManager V) (now : Nat) (token_bytes : Bytes) (v : V) :
    PyStr × SessionManager V :=
  let session_key := b64encode token_bytes
  (session_key, m.set_session now session_key v)

/-- `get_session(session_key)`: look up under the hash. -/
def get_session (m : SessionManager V) (now : Nat) (key : PyStr) :
    Option V × SessionManager V :=
  let (v, d) := m.dict.get now (m.b64hash key)
  (v, { m with dict := d })

/-- `delete_session(session_key)`. -/
def delete_session (m : SessionManager V) (key : PyStr) : SessionManager V :=
  { m with dict := m.dict.delete (m.b64hash key) }

/-- `__contains__(session_key)`: `session_key in self.__dict` — the RAW token
is compared against the stored (hashed) keys. -/
def containsKey (m : SessionManager V) (key : PyStr) : Bool :=
  m.dict.containsRaw key

end SessionManager

/-! ## Concrete inputs for the claims -/

set_option maxRecDepth 100000

/-- The spec's literal scenario 3: a POST whose chunked body is
`"5\r\nhello\r\n6\r\n world\r\n0\r\n\r\n"`. -/
def chunkedScenarioRequest : Bytes :=
  strBytes "POST / HTTP/1.1\r\nTransfer-Encoding: chunked\r\n\r\n5\r\nhello\r\n6\r\n world\r\n0\r\n\r\n"

/-- A buffer that held `"ab"` and from which one byte was popped: two live
bytes `[bottom, top) = [1, 2)` would be... in fact one live byte `"b"`. -/
def popLineStateC2 : FifoBuffer :=
  (((FifoBuffer.init 1024).push (strBytes "ab")).pop 1).2

/-- A wrapper whose header budget was configured to 4 bytes, about to read
two 4-byte header lines plus the blank line (10 bytes in total). -/
def headersBudgetState : HttpSocketWrapper :=
  { HttpSocketWrapper.init (strBytes "ab\r\ncd\r\n\r\n") with max_headers_size := 4 }

/-- A well-formed chunked body consisting of one chunk of exactly
16777215 (= 0xffffff) bytes: the hex line, the payload, its terminator and
the final zero chunk. -/
def exactBudgetBody : Bytes :=
  strBytes "ffffff\r\n" ++ List.replicate 16777215 65 ++ strBytes "\r\n0\r\n\r\n"

/-- A wrapper whose `max_content_length` was configured to exactly the size of
`exactBudgetBody`'s single chunk (budgets reset, as after
`_get_headers_strings`). -/
def wExactBudget : HttpSocketWrapper :=
  { HttpSocketWrapper.init exactBudgetBody with
      max_content_length := 16777215, remaining_size := 16777215 }

/-- A well-formed chunked body of one 15728640 (= 0xf00000) byte chunk. -/
def overBudgetBody : Bytes :=
  strBytes "f00000\r\n" ++ List.replicate 15728640 65 ++ strBytes "\r\n0\r\n\r\n"

/-- A wrapper whose remaining budget (10000000) is smaller than
`overBudgetBody`'s declared chunk, which should therefore be rejected. -/
def wOverBudget : HttpSocketWrapper :=
  { HttpSocketWrapper.init overBudgetBody with
      max_content_length := 10000000, remaining_size := 10000000 }

/-- A request whose first line has three tokens but an unknown method. -/
def invalidMethodRequest : Bytes :=
  strBytes "FOO /x HTTP/1.1\r\n\r\n"

/-- A request that carries `Connection: close`. -/
def closeRequestWire : Bytes :=
  strBytes "GET / HTTP/1.1\r\nConnection: close\r\n\r\n"

/-- A MIME map with no extension for any type (`mimetypes.guess_extension`
returning `None`). -/
def guessExtNone : PyStr → Option PyStr :=
  fun _ => none

/-- A well-formed multipart form with boundary `X` and exactly one (non-file)
field `a` with value `1`. -/
def oneFieldForm : Bytes :=
  strBytes "--X\r\nContent-Disposition: form-data; name=a\r\n\r\n1\r\n--X--"

/-- Part headers with a field name, no filename parameter, and a non-textual
content type. -/
def nonTextHeaders : AssocD :=
  [(strChars "content-disposition", strChars "form-data; name=a"),
   (strChars "content-type", strChars "application/vnd.foo")]

/-! ## The claims -/

/-- C1 (code bug).  The claim says every well-formed chunked body decodes to
the concatenation of its chunk payloads, and in particular
`"5\r\nhello\r\n6\r\n world\r\n0\r\n\r\n"` yields the body `"hello world"`.
In fact `__read_body_chunked` never consumes the `\r\n` terminator after a
chunk's data, so the next hex-length `read_line` returns the empty string and
`int(b'', 16)` raises `ValueError`: reading the spec's own scenario-3 request
fails (and the connection loop turns the `ValueError` into a 500). -/
theorem chunked_scenario_raises_valueerror :
    HttpSocketWrapper.get_request 60 (HttpSocketWrapper.init chunkedScenarioRequest)
      = .error .valueError
    ∧ errorStatusOf .valueError = some status_codes.INTERNAL_SERVER_ERROR := by
  decide

/-- C2 (code bug).  The claim says `pop_line` with no `\n` buffered returns
all currently buffered bytes and leaves the buffer empty.  In fact
`pop_until` uses `bytearray.find`, which returns `-1` instead of raising, so
the `except ValueError: return self.pop_all()` branch is dead: on a miss the
method returns `b''` and rewinds `bottom` to 0, resurrecting already-popped
stale bytes.  Here the buffer holds `"b"` (after `push(b"ab"); pop(1)`):
`pop_line` returns `b''` and the buffer afterwards holds `"ab"` again. -/
theorem pop_line_without_newline_returns_empty :
    popLineStateC2.peek popLineStateC2.length = strBytes "b"
    ∧ popLineStateC2.pop_line.1 = []
    ∧ (popLineStateC2.pop_line.2).peek (popLineStateC2.pop_line.2).length = strBytes "ab" := by
  decide

/-- C3 counterexample.  With `max_headers_size = 4`, the header phase reads
two header lines and the blank line, consuming all 10 bytes from the socket —
more than the 4-byte total the claim allows — and succeeds:
`remaining_header_size` bounds each line but is never decremented, so it does
not bound the total. -/
theorem header_total_exceeds_budget :
    (HttpSocketWrapper.get_headers_strings 20 headersBudgetState).toOption.map
      (fun p => (p.1, p.2.sock.stream.length)) = some ([strChars "ab", strChars "cd"], 0)
    ∧ ((headersBudgetState.sock.stream.length : Int) - 0
        > headersBudgetState.max_headers_size) := by
  decide

/-- Consumption bound for the `read_line` receive loop: an `ok` result never
consumes more pending bytes than the remaining byte budget. -/
theorem readLineLoop_stream_bound (fuel : Nat) :
    ∀ (line : Bytes) (remaining : Int) (buf : FifoBuffer) (stream : Bytes)
      (res : Bytes) (bs1 : BufferedSocket),
      BufferedSocket.readLineLoop fuel line remaining buf stream = .ok (res, bs1) →
      stream.length ≤ bs1.stream.length + remaining.toNat := by
  induction fuel with
  | zero =>
    intro line remaining buf stream res bs1 h
    simp [BufferedSocket.readLineLoop] at h
  | succ fuel ih =>
    intro line remaining buf stream res bs1 h
    rw [BufferedSocket.readLineLoop] at h
    unfold BufferedSocket.sockRecv at h
    generalize hn : min ((max buf.length 1024 : Nat) : Int) remaining = n at h
    have hnr : n ≤ remaining := hn ▸ min_le_right _ _
    by_cases hneg : n < 0
    · rw [if_pos hneg] at h
      exact absurd h (by simp)
    · rw [if_neg hneg] at h
      dsimp only at h
      cases hfind : (stream.take n.toNat).findIdx? (· == 10) with
      | some index =>
        rw [hfind] at h
        dsimp only at h
        cases hlast : (line ++ (stream.take n.toNat).take index).getLast? with
        | none =>
          rw [hlast] at h
          exact absurd h (by simp)
        | some a =>
          rw [hlast] at h
          dsimp only at h
          have hbs : bs1.stream = stream.drop n.toNat := by
            have := congrArg (fun r => match r with
              | Except.ok (p : Bytes × BufferedSocket) => p.2.stream
              | Except.error _ => []) h
            simpa using this.symm
          rw [hbs]
          have h1 : n.toNat ≤ remaining.toNat := Int.toNat_le_toNat hnr
          simp [List.length_drop]
          omega
      | none =>
        rw [hfind] at h
        dsimp only at h
        by_cases hrem : remaining - ((stream.take n.toNat).length : Int) ≤ 0
        · rw [if_pos hrem] at h
          exact absurd h (by simp)
        · rw [if_neg hrem] at h
          have hrec := ih _ _ _ _ _ _ h
          have h1 : n.toNat ≤ remaining.toNat := Int.toNat_le_toNat hnr
          have h2 : (stream.take n.toNat).length = min n.toNat stream.length := by simp
          simp only [List.length_drop] at hrec
          omega

/-- A successful `BufferedSocket.read_line(limit)` consumes at most `limit`
bytes from the socket (the already-buffered prefix was consumed earlier). -/
theorem read_line_stream_bound (bs : BufferedSocket) (limit : Int) (fuel : Nat) :
    ∀ (res : Bytes) (bs1 : BufferedSocket), bs.read_line limit fuel = .ok (res, bs1) →
      bs.stream.length ≤ bs1.stream.length + limit.toNat := by
  intro res bs1 h
  unfold BufferedSocket.read_line at h
  rcases hpl : bs.buffer.pop_line with ⟨line, buf⟩
  rw [hpl] at h
  dsimp only at h
  split at h
  · have hbs : bs1.stream = bs.stream := by
      have := congrArg (fun r => match r with
        | Except.ok (p : Bytes × BufferedSocket) => p.2.stream
        | Except.error _ => []) h
      simpa using this.symm
    rw [hbs]
    omega
  · have hb := readLineLoop_stream_bound fuel line ((limit : Int) - line.length) buf bs.stream res bs1 h
    have h2 : ((limit : Int) - line.length).toNat ≤ limit.toNat := by omega
    omega

/-- C3 (corrected).  The amended claim: each individual header-line read
consumes at most `remaining_header_size` bytes from the socket; the total
over a request's header lines is bounded only per line (the budget is never
decremented), not in aggregate. -/
theorem read_line_consumption_le_limit (w : HttpSocketWrapper) (limit : Int) (fuel : Nat) :
    match w.read_line limit fuel with
    | .ok (_, w1) => w.sock.stream.length ≤ w1.sock.stream.length + limit.toNat
    | .error _ => True := by
  unfold HttpSocketWrapper.read_line
  cases hs : w.sock.read_line limit fuel with
  | error e => cases e <;> simp
  | ok p =>
    obtain ⟨res, bs1⟩ := p
    simpa using read_line_stream_bound w.sock limit fuel res bs1 hs

/-- C4 (code bug).  The claim's canonical rule: raise `PayloadTooLarge`
exactly when the next chunk would drive the remaining size budget below
zero.  The source checks `if not self._remaining_size` after the deduction:
(a) a single well-formed chunk of exactly the remaining budget (16777215
bytes) makes the budget 0 and is rejected with `PayloadTooLarge`, though it
never goes below zero; (b) a chunk of 15728640 bytes against a budget of
10000000 drives the budget to −5728640, which is NOT zero, so no
`PayloadTooLarge` is raised and the over-budget chunk is accepted. -/
theorem chunk_budget_check_mismatch :
    HttpSocketWrapper.readBodyChunked 30 wExactBudget (TempFileFactory.init 128000) none
      = .error (.httpError status_codes.PAYLOAD_TOO_LARGE)
    ∧ (HttpSocketWrapper.readChunkHeader wOverBudget 30).toOption.map
        (fun p => (p.1, p.2.remaining_size)) = some (15728640, -5728640) := by
  decide

/-- C5 (code bug).  The claim says an unknown method makes reading the
request fail with `HttpError(400)` so the loop answers 400.  The source's
branch is `raise ValueError(status_codes.BAD_REQUEST, "Method name invalid")`
— a bare `ValueError` (with `HttpError`-style arguments, plainly a slip), so
the loop's `except Exception` arm answers 500 instead. -/
theorem invalid_method_raises_valueerror_500 :
    HttpSocketWrapper.get_request 60 (HttpSocketWrapper.init invalidMethodRequest)
      = .error .valueError
    ∧ errorStatusOf .valueError = some status_codes.INTERNAL_SERVER_ERROR := by
  decide

/-- C6 counterexample.  A request carrying `Connection: close`
(`keep_connection = false`) is handled, the handler's response has no
`Connection` header, and the loop continues anyway — `server.py` line 107
consults only the response. -/
theorem request_close_loop_continues :
    (HttpSocketWrapper.get_request 60 (HttpSocketWrapper.init closeRequestWire)).toOption.map
      (fun p => (p.1.keep_connection,
                 handleClientContinue (.ok p.1) (fun _ => .ok (HttpResponseM.init 200))))
      = some (false, true) := by
  decide

/-- C6 (corrected).  The amended claim: the connection loop continues to a
further request iff the request was read, the handler returned a response,
and THAT RESPONSE indicates keep-alive (a missing `Connection` header counts
as keep-alive); the request's own `Connection` header is not consulted. -/
theorem loop_continue_iff_resp_keepalive (reqResult : Except PyErr HttpRequestM)
    (handler : HttpRequestM → Except PyErr HttpResponseM) :
    handleClientContinue reqResult handler = true ↔
      ∃ req resp, reqResult = .ok req ∧ handler req = .ok resp ∧
        resp.keep_connection = true := by
  cases reqResult with
  | error e => simp [handleClientContinue]
  | ok req =>
    cases hh : handler req with
    | error e =>
      simp only [handleClientContinue, hh, Bool.false_eq_true, false_iff]
      rintro ⟨req1, resp, hreq, hresp, _⟩
      rw [Except.ok.injEq] at hreq
      subst hreq
      rw [hh] at hresp
      exact Except.noConfusion hresp
    | ok resp =>
      simp only [handleClientContinue, hh]
      constructor
      · intro hk
        exact ⟨req, resp, rfl, hh, hk⟩
      · rintro ⟨req1, resp1, hreq, hresp, hk⟩
        rw [Except.ok.injEq] at hreq
        subst hreq
        rw [hh] at hresp
        rw [Except.ok.injEq] at hresp
        subst hresp
        exact hk

/-- C7 (code bug).  The claim says the "last" group is the seven headers
Trailer, Content-Disposition, Content-Type, Transfer-Encoding,
Content-Language, Content-Location, Content-Length, each emitted once, so a
chunked response carries exactly one `Transfer-Encoding` line.  The source's
`last_headers` tuple (messages.py lines 222–229) lists `TRANSFER_ENCODING`
twice, so a chunked response's header block contains the
`Transfer-Encoding: chunked` line twice. -/
theorem chunked_response_two_transfer_encoding_lines :
    ((HttpResponseM.init 200).set_body_stream (strBytes "x") none).toOption.map
      (fun r => ({ r with protocol := some (strChars "HTTP/1.1") }).get_header_lines)
    = some (.ok [strChars "HTTP/1.1 200 OK",
                 strChars "Transfer-Encoding: chunked",
                 strChars "Transfer-Encoding: chunked",
                 strChars "\r\n"]) := by
  decide

set_option synthInstance.maxSize 512 in
/-- C8 (code bug).  The claim (and the source's own docstring and error
message, "maximum number of fields the form can have ... Max is
{max_entries}") says a form with exactly `max_entries` fields succeeds and
one more fails.  The loop `for i in range(max_entries)` consumes one field
per iteration and only returns when `next_field` reports the terminator
inside an iteration, so a well-formed form with exactly `max_entries` (= 1)
fields exhausts the range and hits the closing `raise
HttpError(PAYLOAD_TOO_LARGE)`; the same form passes with `max_entries = 2`. -/
theorem form_exact_max_entries_rejected :
    parse_form guessExtNone 60 (strChars "X") oneFieldForm none 65536 1
      = .error (.httpError status_codes.PAYLOAD_TOO_LARGE)
    ∧ parse_form guessExtNone 60 (strChars "X") oneFieldForm none 65536 2
      = .ok ([], [(strChars "a", strChars "1")]) := by
  decide

/-- C9 counterexample.  A field `a` with non-textual content type and no
extension in the MIME map gets the synthesized filename `".bin"` — not
`"a.bin"` as the claim states (`self.name + ext if ext else '.bin'` binds as
`(self.name + ext) if ext else '.bin'`). -/
theorem synthesized_filename_drops_name :
    (FormMetadata.make guessExtNone nonTextHeaders).toOption.map (fun m => m.filename)
      = some (some (strChars ".bin"))
    ∧ strChars ".bin" ≠ strChars "a" ++ strChars ".bin" := by
  decide

/-- C9 (corrected).  The amended claim: for a field whose headers carry a
name but no filename parameter and a non-textual content type, the
synthesized filename is the (unquoted) field name concatenated with the
extension when the MIME map yields one, and the bare string `".bin"` (without
the field name) when it yields none. -/
theorem synthesized_filename_amended (gex : PyStr → Option PyStr) (hdrs : AssocD)
    (cd ct name : PyStr)
    (hcd : ciGet hdrs header_keys.CONTENT_DISPOSITION = some cd)
    (hname : get_header_param cd (strChars "name") = some name)
    (hnameT : name ≠ [])
    (hfn : get_header_param cd (strChars "filename") = none)
    (hct : ciContains hdrs header_keys.CONTENT_TYPE = true)
    (hctv : ciGet hdrs header_keys.CONTENT_TYPE = some ct)
    (htext : is_text ct = .ok false) :
    (FormMetadata.make gex hdrs).toOption.map (fun m => m.filename)
      = some (some (match gex ct with
          | some ext => if ext.isEmpty then strChars ".bin" else pyEraseChar name '"' ++ ext
          | none => strChars ".bin")) := by
  have hcds : ciContains hdrs header_keys.CONTENT_DISPOSITION = true := by
    simp [ciContains, dContains, ciGet] at hcd ⊢
    rw [hcd]
    rfl
  have hne : name.isEmpty = false := by
    cases name with
    | nil => exact absurd rfl hnameT
    | cons c t => rfl
  cases hgex : gex ct with
  | none =>
    simp [FormMetadata.make, hcds, hcd, hname, hfn, hct, hctv, htext, optTruthy, hne,
          hgex, Except.toOption, Except.instMonad, Except.bind, Except.pure, bind, pure]
  | some ext =>
    cases hext : ext.isEmpty with
    | true =>
      simp [FormMetadata.make, hcds, hcd, hname, hfn, hct, hctv, htext, optTruthy, hne,
            hgex, hext, Except.toOption, Except.instMonad, Except.bind, Except.pure, bind, pure]
    | false =>
      simp [FormMetadata.make, hcds, hcd, hname, hfn, hct, hctv, htext, optTruthy, hne,
            hgex, hext, Except.toOption, Except.instMonad, Except.bind, Except.pure, bind, pure]

/-- Witness for `synthesized_filename_amended` at the concrete headers
`nonTextHeaders` and the empty MIME map. -/
theorem synthesized_filename_amended_witness :
    (FormMetadata.make guessExtNone nonTextHeaders).toOption.map (fun m => m.filename)
      = some (some (match guessExtNone (strChars "application/vnd.foo") with
          | some ext => if ext.isEmpty then strChars ".bin"
                        else pyEraseChar (strChars "a") '"' ++ ext
          | none => strChars ".bin")) :=
  synthesized_filename_amended guessExtNone nonTextHeaders
    (strChars "form-data; name=a") (strChars "application/vnd.foo") (strChars "a")
    (by decide) (by decide) (by decide) (by decide) (by decide) (by decide) (by decide)

/-- C10 (confirmed).  Immediately after `token = add_session(s)` on a fresh
manager, `token in manager` is `False`: `SessionManager.__contains__` hands
the RAW token to the store's `__contains__`, while the session was stored
under `base64(sha256(token))` — as `get_session(token) = s` (which does hash)
confirms.  The hypothesis rules out the degenerate token that is its own
hash; the connection loop's "token is unknown" test can therefore never
recognize a token it just issued. -/
theorem session_contains_after_add_false {V : Type} (ttl now : Nat) (tb : Bytes) (s : V)
    (httl : 0 < ttl)
    (hne : b64encode (sha256 (pyEncode (b64encode tb))) ≠ b64encode tb) :
    ((@SessionManager.init V ttl sha256).add_session now tb s).2.containsKey
        ((@SessionManager.init V ttl sha256).add_session now tb s).1 = false
    ∧ ((((@SessionManager.init V ttl sha256).add_session now tb s).2.get_session now
        ((@SessionManager.init V ttl sha256).add_session now tb s).1)).1 = some s := by
  have h1 : ¬ (now + ttl < now) := by omega
  have h2 : ¬ (now + ttl ≤ now) := by omega
  constructor
  · simp [SessionManager.init, SessionManager.add_session, SessionManager.set_session,
          SessionManager.b64hash, SessionManager.containsKey, ExpiringDict.init,
          ExpiringDict.setItem, ExpiringDict.expire, ExpiringDict.containsRaw,
          ExpiringDict.lookupRaw, dInsertAny, List.find?, h1, hne]
  · simp [SessionManager.init, SessionManager.add_session, SessionManager.set_session,
          SessionManager.b64hash, SessionManager.get_session, ExpiringDict.init,
          ExpiringDict.setItem, ExpiringDict.expire, ExpiringDict.get,
          ExpiringDict.lookupRaw, ExpiringDict.removeRaw, dInsertAny, List.find?, h1, h2, hne]

/-- Witness for `session_contains_after_add_false` at the all-zero 32-byte
token, the server's 20-minute TTL and a one-entry session: the SHA-256-based
store key differs from the token, membership fails, retrieval succeeds. -/
theorem session_contains_after_add_false_witness :
    ((@SessionManager.init AssocD 1200 sha256).add_session 0 (List.replicate 32 0)
        [(strChars "k", strChars "v")]).2.containsKey
      ((@SessionManager.init AssocD 1200 sha256).add_session 0 (List.replicate 32 0)
        [(strChars "k", strChars "v")]).1 = false
    ∧ ((((@SessionManager.init AssocD 1200 sha256).add_session 0 (List.replicate 32 0)
        [(strChars "k", strChars "v")]).2.get_session 0
      ((@SessionManager.init AssocD 1200 sha256).add_session 0 (List.replicate 32 0)
        [(strChars "k", strChars "v")]).1)).1 = some [(strChars "k", strChars "v")] :=
  session_contains_after_add_false 1200 0 (List.replicate 32 0)
    [(strChars "k", strChars "v")] (by decide) (by decide)
